import Mathlib

/- Shallow embedding of the jbit end-to-end form tester.

   The submission-outcome classifier lives in the FormValidationHelper class
   (validateFormSubmission / getFormFieldValues / areFieldsCleared /
   assertSubmissionSuccess) and, in a second variant, in the simple smoke
   test.  The anti-bot mitigation component lives in the RecaptchaHandler
   class (handleRecaptcha, the five strategy methods, and
   applyMultipleStrategies).

   Driver interactions (locator visibility probes, input values, the page
   URL, screenshots, route registration, script injection) are modelled as
   fields of an environment record, each of type Except String α: an error
   value models the driver call throwing, exactly where the source code can
   observe a throw. -/

namespace FormTester

/-- The ternary verdict surfaced by the classifier: Success when the
decision step reports success, Failure when an error indicator matched,
Unclear otherwise. -/
inductive Verdict where
  | Success
  | Failure
  | Unclear
  deriving DecidableEq

/-- The results object built by FormValidationHelper.validateFormSubmission,
with the fields initialised exactly as in the source. -/
structure ValidationResults where
  success : Bool
  hasSuccessMessage : Bool
  hasErrorMessage : Bool
  fieldsCleared : Bool
  urlChanged : Bool
  networkRequests : Nat
  errorDetails : Option String
  successDetails : Option String
  deriving DecidableEq

/-- The initial results record of validateFormSubmission. -/
def initialResults : ValidationResults :=
  { success := false
    hasSuccessMessage := false
    hasErrorMessage := false
    fieldsCleared := false
    urlChanged := false
    networkRequests := 0
    errorDetails := none
    successDetails := none }

/-- The prioritized success-indicator selector list of
validateFormSubmission. -/
def successSelectors : List String :=
  [ "text=\"Bedankt voor je bericht\""
  , "text=\"Uw bericht is verzonden\""
  , "text=\"Thank you for your message\""
  , "text=\"Your message has been sent\""
  , "text=\"Message sent successfully\""
  , "text=\"Merci pour votre message\""
  , ".elementor-message.elementor-message-success"
  , ".elementor-form-success"
  , ".elementor-success-message"
  , ".success-message"
  , "[data-success=\"true\"]"
  , ".form-success" ]

/-- The prioritized error-indicator selector list of
validateFormSubmission. -/
def errorSelectors : List String :=
  [ "text=\"Please verify that you are human\""
  , "text=\"Your submission failed because of an error\""
  , "text=\"Er is een fout opgetreden\""
  , "text=\"Verzending mislukt\""
  , "text=\"Une erreur est survenue\""
  , ".elementor-message.elementor-message-danger"
  , ".elementor-message.elementor-message-error"
  , ".elementor-form-error"
  , ".elementor-error-message"
  , ".error-message"
  , "[data-error=\"true\"]"
  , ".form-error" ]

/-- The for-loop over a selector list: probe visibility of each selector in
order, stop at the first visible one (returning it), none when no selector
is visible.  A visibility probe that throws aborts the loop with the
error. -/
def scanSelectors (vis : String → Except String Bool) : List String → Except String (Option String)
  | [] => Except.ok none
  | sel :: rest =>
    match vis sel with
    | Except.error e => Except.error e
    | Except.ok true => Except.ok (some sel)
    | Except.ok false => scanSelectors vis rest

/-- The values object built by getFormFieldValues: a key is set only when
the corresponding locator matched at least one element (count > 0); an
unset key models the JavaScript property being undefined. -/
structure FieldValues where
  name : Option String := none
  email : Option String := none
  phone : Option String := none
  message : Option String := none
  deriving DecidableEq

/-- Observable page state consumed by validateFormSubmission, one field per
driver interaction in source order.  For the four form-field probes,
Except.ok none models locator count = 0 (value never read),
Except.ok (some v) models reading back the value v, and Except.error models
the driver call throwing. -/
structure PageState where
  screenshotPost : Except String Unit
  visible : String → Except String Bool
  nameField : Except String (Option String)
  emailField : Except String (Option String)
  phoneField : Except String (Option String)
  messageField : Except String (Option String)
  url : Except String String
  screenshotFinal : Except String Unit
  screenshotError : Except String Unit

/-- FormValidationHelper.getFormFieldValues: reads the four fields in
order inside its own try/catch; a throw is caught locally, keeping the
values collected so far. -/
def getFormFieldValues (p : PageState) : FieldValues :=
  match p.nameField with
  | Except.error _ => {}
  | Except.ok n =>
    match p.emailField with
    | Except.error _ => { name := n }
    | Except.ok em =>
      match p.phoneField with
      | Except.error _ => { name := n, email := em }
      | Except.ok ph =>
        match p.messageField with
        | Except.error _ => { name := n, email := em, phone := ph }
        | Except.ok msg => { name := n, email := em, phone := ph, message := msg }

/-- The per-field test of areFieldsCleared:
!fieldValues[field] || fieldValues[field].trim() === ''.  An unset key
(undefined) is falsy, hence counts as cleared. -/
def fieldEmptyOrMissing : Option String → Bool
  | none => true
  | some s => s.trim == ""

/-- FormValidationHelper.areFieldsCleared over the required fields
name, email, message. -/
def areFieldsCleared (v : FieldValues) : Bool :=
  fieldEmptyOrMissing v.name && fieldEmptyOrMissing v.email && fieldEmptyOrMissing v.message

/-- Whether the first character list is an initial segment of the
second. -/
def leadsWith : List Char → List Char → Bool
  | [], _ => true
  | _ :: _, [] => false
  | a :: as, b :: bs => (a == b) && leadsWith as bs

/-- Whether the first character list occurs contiguously somewhere in the
second. -/
def occursWithin (sub : List Char) : List Char → Bool
  | [] => leadsWith sub []
  | c :: rest => leadsWith sub (c :: rest) || occursWithin sub rest

/-- JavaScript String.prototype.includes: sub occurs as a contiguous
substring of s. -/
def includesSubstr (s sub : String) : Bool :=
  occursWithin sub.data s.data

/-- Step 5 of validateFormSubmission (determine overall success): an error
message forces success = false; otherwise success holds when at least one
of the three positive indicators is true. -/
def determineOverallSuccess (r : ValidationResults) : ValidationResults :=
  if r.hasErrorMessage then
    { r with success := false }
  else
    let successIndicators := [r.hasSuccessMessage, r.fieldsCleared, r.urlChanged]
    let successCount := (successIndicators.filter (fun b => b)).length
    { r with success := decide (0 < successCount) }

/-- The body of the try block of validateFormSubmission: the success scan,
the error scan, the fields-cleared computation, the URL check, the
decision step, and the final screenshot.  Returns the results record as
accumulated so far, paired with the message of the first throw when one of
the probes inside the try block threw (the catch clause of the source
receives exactly this pair: the mutated results object plus the error). -/
def tryValidate (p : PageState) (takeScreenshots : Bool) : ValidationResults × Option String :=
  let r := initialResults
  match scanSelectors p.visible successSelectors with
  | Except.error e => (r, some e)
  | Except.ok foundSuccess =>
    let r := { r with hasSuccessMessage := foundSuccess.isSome, successDetails := foundSuccess }
    match scanSelectors p.visible errorSelectors with
    | Except.error e => (r, some e)
    | Except.ok foundError =>
      let r := { r with hasErrorMessage := foundError.isSome, errorDetails := foundError }
      let fieldValues := getFormFieldValues p
      let r := { r with fieldsCleared := areFieldsCleared fieldValues }
      match p.url with
      | Except.error e => (r, some e)
      | Except.ok currentUrl =>
        let r := { r with urlChanged := !(includesSubstr currentUrl "/contact-nl/") && !(includesSubstr currentUrl "/contact/") }
        let r := determineOverallSuccess r
        match (if takeScreenshots then p.screenshotFinal else Except.ok ()) with
        | Except.error e => (r, some e)
        | Except.ok _ => (r, none)

/-- FormValidationHelper.validateFormSubmission.  The post-submission
screenshot precedes the try block, so its throw propagates.  A throw
inside the try block is caught: success is forced to false, errorDetails
is overwritten with a diagnostic, and the catch clause takes a further
screenshot (unguarded, so its own throw propagates) before returning the
results. -/
def validateFormSubmission (p : PageState) (takeScreenshots : Bool) : Except String ValidationResults :=
  match (if takeScreenshots then p.screenshotPost else Except.ok ()) with
  | Except.error e => Except.error e
  | Except.ok _ =>
    match tryValidate p takeScreenshots with
    | (r, none) => Except.ok r
    | (r, some msg) =>
      let r := { r with success := false, errorDetails := some ("Validation error: " ++ msg) }
      match (if takeScreenshots then p.screenshotError else Except.ok ()) with
      | Except.error e => Except.error e
      | Except.ok _ => Except.ok r

/-- The ternary verdict read off a decided results record, mirroring the
branch order of assertSubmissionSuccess: the error indicator is consulted
first, then the success flag. -/
def submissionVerdict (r : ValidationResults) : Verdict :=
  if r.hasErrorMessage then Verdict.Failure
  else if r.success then Verdict.Success
  else Verdict.Unclear

/-- FormValidationHelper.assertSubmissionSuccess: throws a FAILED error on
an error indicator, an UNCLEAR error when no positive indicator was found,
and returns normally otherwise.  The message strings are the ones built in
the source. -/
def assertSubmissionSuccess (r : ValidationResults) : Except String Unit :=
  if r.hasErrorMessage then
    Except.error ("❌ FORM SUBMISSION FAILED: Server returned error message - "
      ++ (r.errorDetails.getD "null")
      ++ ". This indicates the form was NOT processed by the server.")
  else if !r.success then
    Except.error ("❌ FORM SUBMISSION STATUS UNCLEAR: No positive success indicators found. "
      ++ "The form may have been submitted but not processed by the server. "
      ++ "Check WordPress admin panel for actual submissions. "
      ++ "Details: success_message=" ++ toString r.hasSuccessMessage
      ++ ", fields_cleared=" ++ toString r.fieldsCleared
      ++ ", url_changed=" ++ toString r.urlChanged)
  else
    Except.ok ()

/-- The smoke-test decision expression:
hasSuccessMessage || (fieldsCleared && !hasErrorMessage) || urlChanged. -/
def smokeSubmissionSuccessful (hasSuccessMessage hasErrorMessage fieldsCleared urlChanged : Bool) : Bool :=
  hasSuccessMessage || (fieldsCleared && !hasErrorMessage) || urlChanged

/-- The smoke-test verdict: the error check throws first, then a missing
positive indicator throws the unclear error, otherwise the test passes. -/
def smokeVerdict (hasSuccessMessage hasErrorMessage fieldsCleared urlChanged : Bool) : Verdict :=
  if hasErrorMessage then Verdict.Failure
  else if smokeSubmissionSuccessful hasSuccessMessage hasErrorMessage fieldsCleared urlChanged then Verdict.Success
  else Verdict.Unclear

/-- Driver environment consumed by the RecaptchaHandler strategies, one
field per driver interaction (route registration, init-script injection,
page.evaluate) plus the ambient process environment and page URL read by
environmentBypass.  An Except.error value models the driver call
throwing. -/
structure DriverEnv where
  routeRecaptchaAll : Except String Unit
  routeGstatic : Except String Unit
  routeGoogle : Except String Unit
  addInitScriptMock : Except String Unit
  routeSiteverify : Except String Unit
  routeReload : Except String Unit
  routeReleasesScript : Except String Unit
  nodeEnv : Option String
  testingEnv : Option String
  pageUrl : String
  addInitScriptTestMode : Except String Unit
  evaluateRemoveRecaptcha : Except String Unit

/-- RecaptchaHandler.disableRecaptchaScripts: registers three blocking
routes in order, then returns true. -/
def disableRecaptchaScripts (env : DriverEnv) : Except String Bool := do
  let _ ← env.routeRecaptchaAll
  let _ ← env.routeGstatic
  let _ ← env.routeGoogle
  pure true

/-- RecaptchaHandler.mockRecaptchaResponse: injects the grecaptcha mock as
an init script, then returns true. -/
def mockRecaptchaResponse (env : DriverEnv) : Except String Bool := do
  let _ ← env.addInitScriptMock
  pure true

/-- RecaptchaHandler.interceptRecaptchaRequests: registers the siteverify,
reload and releases-script routes in order, then returns true. -/
def interceptRecaptchaRequests (env : DriverEnv) : Except String Bool := do
  let _ ← env.routeSiteverify
  let _ ← env.routeReload
  let _ ← env.routeReleasesScript
  pure true

/-- RecaptchaHandler.environmentBypass: detects a test environment from
NODE_ENV, TESTING or the page URL; when detected, injects the test-mode
init script and returns true, otherwise returns false. -/
def environmentBypass (env : DriverEnv) : Except String Bool :=
  let isTestEnvironment :=
    env.nodeEnv == some "test" || env.testingEnv == some "true" ||
    includesSubstr env.pageUrl "test" || includesSubstr env.pageUrl "staging"
  if isTestEnvironment then do
    let _ ← env.addInitScriptTestMode
    pure true
  else
    pure false

/-- RecaptchaHandler.directApiSubmission: evaluates the DOM-purge script
(remove recaptcha elements, patch form.submit), then returns true. -/
def directApiSubmission (env : DriverEnv) : Except String Bool := do
  let _ ← env.evaluateRemoveRecaptcha
  pure true

/-- The switch statement of RecaptchaHandler.handleRecaptcha: dispatch on
the strategy name, any unknown name falls through to the default
interceptRecaptchaRequests. -/
def runStrategy (env : DriverEnv) (strategy : String) : Except String Bool :=
  if strategy == "disable_scripts" then disableRecaptchaScripts env
  else if strategy == "mock_response" then mockRecaptchaResponse env
  else if strategy == "intercept_network" then interceptRecaptchaRequests env
  else if strategy == "environment_bypass" then environmentBypass env
  else if strategy == "direct_api" then directApiSubmission env
  else interceptRecaptchaRequests env

/-- RecaptchaHandler.handleRecaptcha: the dispatch runs inside a try/catch
that converts any throw into a false return, so the call itself never
throws. -/
def handleRecaptcha (env : DriverEnv) (strategy : String) : Except String Bool :=
  match runStrategy env strategy with
  | Except.ok b => Except.ok b
  | Except.error _ => Except.ok false

/-- The fixed priority order of applyMultipleStrategies. -/
def strategyOrder : List String :=
  ["intercept_network", "mock_response", "disable_scripts", "direct_api"]

/-- The loop of applyMultipleStrategies, instrumented with the list of
strategy names actually passed to handleRecaptcha (in invocation order):
stop with true at the first strategy reporting success; a throw from
handleRecaptcha is caught and the loop continues. -/
def applyStrategiesLoop (env : DriverEnv) : List String → Except String (Bool × List String)
  | [] => Except.ok (false, [])
  | s :: rest =>
    match handleRecaptcha env s with
    | Except.ok true => Except.ok (true, [s])
    | Except.ok false =>
      (applyStrategiesLoop env rest).map (fun br => (br.1, s :: br.2))
    | Except.error _ =>
      (applyStrategiesLoop env rest).map (fun br => (br.1, s :: br.2))

/-- RecaptchaHandler.applyMultipleStrategies over the fixed strategy
order; the second component of the result is the instrumentation trace of
invoked strategies. -/
def applyMultipleStrategies (env : DriverEnv) : Except String (Bool × List String) :=
  applyStrategiesLoop env strategyOrder

/-- The JSON body fulfilled by the siteverify route handler; errorCodes
carries the JSON key written error-codes in the source. -/
structure SiteverifyResponseBody where
  success : Bool
  challenge_ts : String
  hostname : String
  errorCodes : List String
  deriving DecidableEq

/-- What a route handler can do with an intercepted request. -/
inductive RouteAction where
  | fulfill (status : Nat) (contentType : String) (body : SiteverifyResponseBody)
  | abort
  | forward
  deriving DecidableEq

/-- The route handler interceptRecaptchaRequests registers for
siteverify requests: ignore the request content and fulfill with a
synthetic 200 application/json body asserting success, the timestamp, the
hostname of the current page URL and an empty error-codes array. -/
def siteverifyRouteHandler (requestUrl : String) (challengeTs : String) (pageHostname : String) : RouteAction :=
  let _ := requestUrl
  RouteAction.fulfill 200 "application/json"
    { success := true
      challenge_ts := challengeTs
      hostname := pageHostname
      errorCodes := [] }

/-- A post-submission page state in which the page has navigated away from
the form (URL no longer contains the form path) and none of the form-field
locators resolves (count 0 on every field probe); no selector is visible
and every screenshot succeeds. -/
def navigatedAwayPage : PageState :=
  { screenshotPost := Except.ok ()
    visible := fun _ => Except.ok false
    nameField := Except.ok none
    emailField := Except.ok none
    phoneField := Except.ok none
    messageField := Except.ok none
    url := Except.ok "https://jbit.be/bedankt/"
    screenshotFinal := Except.ok ()
    screenshotError := Except.ok () }

/-- A page state modelling the page having closed mid-classification:
every driver interaction, screenshots included, throws the driver's
page-closed error. -/
def closedPage : PageState :=
  { screenshotPost := Except.error "Target page, context or browser has been closed"
    visible := fun _ => Except.error "Target page, context or browser has been closed"
    nameField := Except.error "Target page, context or browser has been closed"
    emailField := Except.error "Target page, context or browser has been closed"
    phoneField := Except.error "Target page, context or browser has been closed"
    messageField := Except.error "Target page, context or browser has been closed"
    url := Except.error "Target page, context or browser has been closed"
    screenshotFinal := Except.error "Target page, context or browser has been closed"
    screenshotError := Except.error "Target page, context or browser has been closed" }

/-- A driver environment in which every driver call succeeds, outside any
test environment. -/
def allOkEnv : DriverEnv :=
  { routeRecaptchaAll := Except.ok ()
    routeGstatic := Except.ok ()
    routeGoogle := Except.ok ()
    addInitScriptMock := Except.ok ()
    routeSiteverify := Except.ok ()
    routeReload := Except.ok ()
    routeReleasesScript := Except.ok ()
    nodeEnv := none
    testingEnv := none
    pageUrl := "https://jbit.be/contact-nl/"
    addInitScriptTestMode := Except.ok ()
    evaluateRemoveRecaptcha := Except.ok () }

/-- An evidence record with the error indicator matched on the
human-verification pattern while every positive indicator is also true. -/
def errorEvidence : ValidationResults :=
  { initialResults with
    hasErrorMessage := true
    errorDetails := some "text=\"Please verify that you are human\""
    hasSuccessMessage := true
    fieldsCleared := true
    urlChanged := true }

/-- Scenario D evidence: only the redirect indicator is true. -/
def redirectOnlyEvidence : ValidationResults :=
  { initialResults with urlChanged := true }

/-- An evidence record carrying only an error indicator, with the
form-error selector as the matched pattern. -/
def failOnlyEvidence : ValidationResults :=
  { initialResults with hasErrorMessage := true, errorDetails := some ".form-error" }

/-- An evidence record agreeing with redirectOnlyEvidence on the four
indicator fields but differing on every informational field. -/
def redirectOnlyEvidenceNoisy : ValidationResults :=
  { initialResults with
    urlChanged := true
    networkRequests := 7
    errorDetails := some "diagnostic noise"
    successDetails := some "other noise" }

/-! Helper lemmas shared by the claim theorems. -/

/-- The decision step in closed form: success holds exactly when no error
indicator matched and at least one positive indicator is true; no other
field changes. -/
theorem determineOverallSuccess_eq (r : ValidationResults) :
    determineOverallSuccess r =
      { r with success := !r.hasErrorMessage && (r.hasSuccessMessage || r.fieldsCleared || r.urlChanged) } := by
  obtain ⟨s, hs, he, fc, uc, n, ed, sd⟩ := r
  cases he <;> cases hs <;> cases fc <;> cases uc <;> rfl

/-- Sequencing after a successful driver call just continues. -/
theorem except_bind_ok {ε α β : Type} (a : α) (f : α → Except ε β) :
    Bind.bind (Except.ok a : Except ε α) f = f a := rfl

/-- handleRecaptcha never surfaces a thrown error: its catch converts any
throw into a false return. -/
theorem handleRecaptcha_ok (env : DriverEnv) (strategy : String) :
    ∃ b, handleRecaptcha env strategy = Except.ok b := by
  unfold handleRecaptcha
  cases runStrategy env strategy with
  | ok b => exact ⟨b, rfl⟩
  | error e => exact ⟨false, rfl⟩

/-- The strategy loop never surfaces a thrown error. -/
theorem applyStrategiesLoop_ok (env : DriverEnv) (l : List String) :
    ∃ br, applyStrategiesLoop env l = Except.ok br := by
  induction l with
  | nil => exact ⟨(false, []), rfl⟩
  | cons s rest ih =>
    obtain ⟨b, hb⟩ := handleRecaptcha_ok env s
    obtain ⟨br, hbr⟩ := ih
    cases b with
    | true => exact ⟨(true, [s]), by simp [applyStrategiesLoop, hb]⟩
    | false => exact ⟨(br.1, s :: br.2), by simp [applyStrategiesLoop, hb, hbr, Except.map]⟩

/-- A string diverging from p within the first n characters differs from
every string of the shape p ++ mid ++ rest. -/
theorem str_ne_of_take_ne (t p mid rest : String) (n : Nat)
    (h1 : n ≤ p.data.length) (h2 : t.data.take n ≠ p.data.take n) :
    t ≠ p ++ mid ++ rest := by
  intro h
  apply h2
  have hd : t.data = p.data ++ mid.data ++ rest.data := by rw [h]; rfl
  have h1' : n ≤ (p.data ++ mid.data).length := by
    rw [List.length_append]
    exact Nat.le_trans h1 (Nat.le_add_right _ _)
  calc t.data.take n = (p.data ++ mid.data ++ rest.data).take n := by rw [hd]
    _ = (p.data ++ mid.data).take n := List.take_append_of_le_length h1'
    _ = p.data.take n := List.take_append_of_le_length h1

/-! Claim theorems. -/

/-- Claim C1: for every evidence snapshot whose error indicator is true,
the verdict is Failure with the matched pattern preserved as evidence,
regardless of the other indicator values; the smoke-test variant of the
classifier likewise yields Failure whenever its error indicator is
true. -/
theorem error_indicator_forces_failure (r : ValidationResults) (pat : String)
    (hErr : r.hasErrorMessage = true) (hPat : r.errorDetails = some pat) :
    submissionVerdict (determineOverallSuccess r) = Verdict.Failure ∧
    (determineOverallSuccess r).errorDetails = some pat ∧
    (∀ hasSuccessMessage fieldsCleared urlChanged : Bool,
      smokeVerdict hasSuccessMessage true fieldsCleared urlChanged = Verdict.Failure) := by
  refine ⟨?_, ?_, fun _ _ _ => rfl⟩
  · simp [determineOverallSuccess_eq, submissionVerdict, hErr]
  · simp [determineOverallSuccess_eq, hPat]

/-- Witness for the error-dominance theorem at the human-verification
evidence record. -/
theorem error_indicator_forces_failure_witness :
    submissionVerdict (determineOverallSuccess errorEvidence) = Verdict.Failure ∧
    (determineOverallSuccess errorEvidence).errorDetails = some "text=\"Please verify that you are human\"" ∧
    (∀ hasSuccessMessage fieldsCleared urlChanged : Bool,
      smokeVerdict hasSuccessMessage true fieldsCleared urlChanged = Verdict.Failure) :=
  error_indicator_forces_failure errorEvidence _ rfl rfl

/-- Claim C2: with the error indicator false and at least one positive
indicator true, both the FormValidationHelper classifier and the
smoke-test classifier yield Success. -/
theorem positive_indicator_forces_success (r : ValidationResults)
    (hErr : r.hasErrorMessage = false)
    (hPos : (r.hasSuccessMessage || r.fieldsCleared || r.urlChanged) = true) :
    submissionVerdict (determineOverallSuccess r) = Verdict.Success ∧
    smokeVerdict r.hasSuccessMessage r.hasErrorMessage r.fieldsCleared r.urlChanged = Verdict.Success := by
  constructor
  · simp [determineOverallSuccess_eq, submissionVerdict, hErr, hPos]
  · simp [smokeVerdict, smokeSubmissionSuccessful, hErr, hPos]

/-- Witness for the positive-indicator theorem at the redirect-only
evidence record (Scenario D: a redirect alone suffices). -/
theorem positive_indicator_forces_success_witness :
    submissionVerdict (determineOverallSuccess redirectOnlyEvidence) = Verdict.Success ∧
    smokeVerdict redirectOnlyEvidence.hasSuccessMessage redirectOnlyEvidence.hasErrorMessage
      redirectOnlyEvidence.fieldsCleared redirectOnlyEvidence.urlChanged = Verdict.Success :=
  positive_indicator_forces_success redirectOnlyEvidence rfl rfl

/-- Claim C9: the verdict is a pure deterministic function of the four
evidence indicator fields; two evidence records agreeing on those four
fields receive the same verdict whatever their informational fields
(errorDetails, successDetails, networkRequests) hold, and in particular
classifying the same snapshot twice yields the same verdict. -/
theorem verdict_deterministic (r1 r2 : ValidationResults)
    (h1 : r1.hasErrorMessage = r2.hasErrorMessage)
    (h2 : r1.hasSuccessMessage = r2.hasSuccessMessage)
    (h3 : r1.fieldsCleared = r2.fieldsCleared)
    (h4 : r1.urlChanged = r2.urlChanged) :
    submissionVerdict (determineOverallSuccess r1) = submissionVerdict (determineOverallSuccess r2) := by
  simp [determineOverallSuccess_eq, submissionVerdict, h1, h2, h3, h4]

/-- Witness for verdict determinism: a record with noisy informational
fields receives the same verdict as the plain record sharing its
indicators. -/
theorem verdict_deterministic_witness :
    submissionVerdict (determineOverallSuccess redirectOnlyEvidence) =
      submissionVerdict (determineOverallSuccess redirectOnlyEvidenceNoisy) :=
  verdict_deterministic redirectOnlyEvidence redirectOnlyEvidenceNoisy rfl rfl rfl rfl

/-- Claim C4: with the error indicator false and no positive indicator,
the verdict is Unclear, not Failure, and the error assertSubmissionSuccess
raises for it differs textually from the error raised for any evidence
record carrying a confirmed error indicator, whatever pattern that record
matched. -/
theorem unclear_verdict_distinct_error (r : ValidationResults)
    (hErr : r.hasErrorMessage = false) (hS : r.hasSuccessMessage = false)
    (hF : r.fieldsCleared = false) (hU : r.urlChanged = false) :
    submissionVerdict (determineOverallSuccess r) = Verdict.Unclear ∧
    ∀ rf : ValidationResults, rf.hasErrorMessage = true →
      assertSubmissionSuccess (determineOverallSuccess r) ≠
        assertSubmissionSuccess (determineOverallSuccess rf) := by
  constructor
  · simp [determineOverallSuccess_eq, submissionVerdict, hErr, hS, hF, hU]
  · intro rf hrf
    have hr : assertSubmissionSuccess (determineOverallSuccess r) =
        Except.error ("❌ FORM SUBMISSION STATUS UNCLEAR: No positive success indicators found. "
          ++ "The form may have been submitted but not processed by the server. "
          ++ "Check WordPress admin panel for actual submissions. "
          ++ "Details: success_message=" ++ toString false
          ++ ", fields_cleared=" ++ toString false
          ++ ", url_changed=" ++ toString false) := by
      simp [determineOverallSuccess_eq, assertSubmissionSuccess, hErr, hS, hF, hU]
    have hf : assertSubmissionSuccess (determineOverallSuccess rf) =
        Except.error ("❌ FORM SUBMISSION FAILED: Server returned error message - "
          ++ (rf.errorDetails.getD "null")
          ++ ". This indicates the form was NOT processed by the server.") := by
      simp [determineOverallSuccess_eq, assertSubmissionSuccess, hrf]
    rw [hr, hf]
    simp only [ne_eq, Except.error.injEq]
    apply str_ne_of_take_ne _ _ _ _ 19
    · decide
    · decide

/-- Witness for the Unclear-verdict theorem: the all-false snapshot is
Unclear, and its raised error differs from the raised error of every
confirmed-failure snapshot. -/
theorem unclear_verdict_distinct_error_witness :
    submissionVerdict (determineOverallSuccess initialResults) = Verdict.Unclear ∧
    ∀ rf : ValidationResults, rf.hasErrorMessage = true →
      assertSubmissionSuccess (determineOverallSuccess initialResults) ≠
        assertSubmissionSuccess (determineOverallSuccess rf) :=
  unclear_verdict_distinct_error initialResults rfl rfl rfl rfl

/-- Claim C3 evaluation: areFieldsCleared applied to the empty values
record (every field locator inaccessible, count 0, so no key was set)
returns true, and consequently the classifier run on a page that has
navigated away from the form with no resolvable field locators reports
fieldsCleared = true alongside urlChanged = true. -/
theorem fieldsCleared_spurious_after_navigation :
    areFieldsCleared {} = true ∧
    (validateFormSubmission navigatedAwayPage false).map
      (fun r => (r.fieldsCleared, r.urlChanged, r.hasErrorMessage, r.success)) =
      Except.ok (true, true, false, true) := ⟨rfl, rfl⟩

/-- Claim C5 evaluation: with screenshots enabled (the default) and the
page closed mid-probe, validateFormSubmission propagates the screenshot
exception instead of returning a diagnostic result; the catch-based
recovery (success = false, diagnostic errorDetails) is reached only when
screenshots are disabled. -/
theorem validate_crashes_on_screenshot_failure :
    validateFormSubmission closedPage true =
      Except.error "Target page, context or browser has been closed" ∧
    (validateFormSubmission closedPage false).map (fun r => (r.success, r.errorDetails)) =
      Except.ok (false, some "Validation error: Target page, context or browser has been closed") :=
  ⟨rfl, rfl⟩

/-- Claim C6: handleRecaptcha returns a boolean for every strategy name
(including unknown ones) and never surfaces a throw — any strategy error
is converted into a false return — and applyMultipleStrategies likewise
never surfaces a throw. -/
theorem recaptcha_handling_never_raises :
    ∀ (env : DriverEnv) (strategy : String),
      (∃ b, handleRecaptcha env strategy = Except.ok b) ∧
      (∃ br, applyMultipleStrategies env = Except.ok br) :=
  fun env strategy =>
    ⟨handleRecaptcha_ok env strategy, applyStrategiesLoop_ok env strategyOrder⟩

/-- Claim C7: applyMultipleStrategies tries intercept_network,
mock_response, disable_scripts, direct_api in that fixed order, returns
true right after the first success with exactly the strategies up to that
point invoked, and returns false (with all four invoked) only when every
strategy reports failure. -/
theorem strategies_tried_in_priority_order (env : DriverEnv) :
    (handleRecaptcha env "intercept_network" = Except.ok true →
      applyMultipleStrategies env = Except.ok (true, ["intercept_network"])) ∧
    (handleRecaptcha env "intercept_network" = Except.ok false →
      handleRecaptcha env "mock_response" = Except.ok true →
      applyMultipleStrategies env = Except.ok (true, ["intercept_network", "mock_response"])) ∧
    (handleRecaptcha env "intercept_network" = Except.ok false →
      handleRecaptcha env "mock_response" = Except.ok false →
      handleRecaptcha env "disable_scripts" = Except.ok true →
      applyMultipleStrategies env =
        Except.ok (true, ["intercept_network", "mock_response", "disable_scripts"])) ∧
    (handleRecaptcha env "intercept_network" = Except.ok false →
      handleRecaptcha env "mock_response" = Except.ok false →
      handleRecaptcha env "disable_scripts" = Except.ok false →
      handleRecaptcha env "direct_api" = Except.ok true →
      applyMultipleStrategies env = Except.ok (true, strategyOrder)) ∧
    (handleRecaptcha env "intercept_network" = Except.ok false →
      handleRecaptcha env "mock_response" = Except.ok false →
      handleRecaptcha env "disable_scripts" = Except.ok false →
      handleRecaptcha env "direct_api" = Except.ok false →
      applyMultipleStrategies env = Except.ok (false, strategyOrder)) := by
  refine ⟨?_, ?_, ?_, ?_, ?_⟩ <;> intros <;>
    simp_all [applyMultipleStrategies, strategyOrder, applyStrategiesLoop, Except.map]

/-- Witness for the priority-order theorem: in the all-succeeding driver
environment only intercept_network is invoked. -/
theorem strategies_tried_in_priority_order_witness :
    applyMultipleStrategies allOkEnv = Except.ok (true, ["intercept_network"]) :=
  (strategies_tried_in_priority_order allOkEnv).1 rfl

/-- Claim C8: the siteverify route handler answers every intercepted
request by fulfilling it with HTTP 200, content-type application/json and
a body asserting success (with the vendor response fields challenge_ts,
hostname and error-codes), never forwarding or aborting it. -/
theorem siteverify_fulfilled_with_success (requestUrl challengeTs pageHostname : String) :
    siteverifyRouteHandler requestUrl challengeTs pageHostname =
      RouteAction.fulfill 200 "application/json"
        { success := true
          challenge_ts := challengeTs
          hostname := pageHostname
          errorCodes := [] } ∧
    siteverifyRouteHandler requestUrl challengeTs pageHostname ≠ RouteAction.forward ∧
    siteverifyRouteHandler requestUrl challengeTs pageHostname ≠ RouteAction.abort := by
  refine ⟨rfl, ?_, ?_⟩ <;> simp [siteverifyRouteHandler]

/-- Claim C10: each of the four strategies used by the composite reports
success unconditionally once its driver registrations or evaluation
complete without error, and when intercept_network registration succeeds
applyMultipleStrategies returns true after invoking only
intercept_network. -/
theorem strategy_success_is_registration :
    (∀ env : DriverEnv, env.routeRecaptchaAll = Except.ok () → env.routeGstatic = Except.ok () →
      env.routeGoogle = Except.ok () → disableRecaptchaScripts env = Except.ok true) ∧
    (∀ env : DriverEnv, env.addInitScriptMock = Except.ok () →
      mockRecaptchaResponse env = Except.ok true) ∧
    (∀ env : DriverEnv, env.routeSiteverify = Except.ok () → env.routeReload = Except.ok () →
      env.routeReleasesScript = Except.ok () → interceptRecaptchaRequests env = Except.ok true) ∧
    (∀ env : DriverEnv, env.evaluateRemoveRecaptcha = Except.ok () →
      directApiSubmission env = Except.ok true) ∧
    (∀ env : DriverEnv, interceptRecaptchaRequests env = Except.ok true →
      applyMultipleStrategies env = Except.ok (true, ["intercept_network"])) := by
  refine ⟨?_, ?_, ?_, ?_, ?_⟩ <;> intro env <;> intros <;>
    simp_all [disableRecaptchaScripts, mockRecaptchaResponse, interceptRecaptchaRequests,
      directApiSubmission, handleRecaptcha, runStrategy, applyMultipleStrategies,
      strategyOrder, applyStrategiesLoop, except_bind_ok]

/-- Witness for the registration-is-success theorem in the all-succeeding
driver environment. -/
theorem strategy_success_is_registration_witness :
    disableRecaptchaScripts allOkEnv = Except.ok true ∧
    mockRecaptchaResponse allOkEnv = Except.ok true ∧
    interceptRecaptchaRequests allOkEnv = Except.ok true ∧
    directApiSubmission allOkEnv = Except.ok true ∧
    applyMultipleStrategies allOkEnv = Except.ok (true, ["intercept_network"]) :=
  ⟨strategy_success_is_registration.1 allOkEnv rfl rfl rfl,
   strategy_success_is_registration.2.1 allOkEnv rfl,
   strategy_success_is_registration.2.2.1 allOkEnv rfl rfl rfl,
   strategy_success_is_registration.2.2.2.1 allOkEnv rfl,
   strategy_success_is_registration.2.2.2.2 allOkEnv
     (strategy_success_is_registration.2.2.1 allOkEnv rfl rfl rfl)⟩

end FormTester
